import Mathlib

/-!
Verification of the telemetry export pipeline of the
`ai-app-starter-aspire` repository (NodeFortuneApi / NodeFortuneSpa).

The definitions below are shallow embeddings of the JavaScript/TypeScript
sources:

* `src/NodeFortuneApi/src/otel-retry-processor.ts`
  (`CustomRetryProcessor.wrapExporter`, `isRetryableError`)
* `src/unnamed/part_014` (`SimpleRetryProcessor`)
* `src/NodeFortuneSpa/tracing-resilient.js` (`createExporterWithRetry`,
  exporter construction, signal handlers)
* `src/NodeFortuneApi/src/tracing-resilient.ts` (exporter construction,
  signal handlers)
* `src/NodeFortuneApi/src/otel-fallback.js` (`switchToConsoleExporters`,
  `registerReconnectionChecker`)
* `src/NodeFortuneApi/src/otel-connectivity.ts` (`testOtlpEndpoint`,
  `testTcpConnection`, `testHttpEndpoint`, `tryAlternativeEndpoints`)

Machine integers do not overflow in any of this code, so numbers are
modelled as `Nat`.  Asynchronous sleeps are recorded symbolically (the list
of delays requested through `setTimeout`), callbacks become return values.
-/

/-! ## Error and result model

A JavaScript `Error` as the exporters see it: a `message` string and an
optional `code` property (Node network errors such as ECONNRESET carry a
`code`; plain `new Error(...)` has none). -/

structure JsError where
  message : String
  code : Option String
deriving DecidableEq

/-- The OpenTelemetry `ExportResult` delivered to an export callback:
`code` is `0` for success (`ExportResultCode.SUCCESS`), non-zero for
failure, and `error` is the optional failure cause. -/
structure ExportResult where
  code : Nat
  error : Option JsError
deriving DecidableEq

/-- Decides whether the first character list is an initial segment of the
second. -/
def leadsWith : List Char → List Char → Bool
  | [], _ => true
  | _ :: _, [] => false
  | p :: ps, c :: cs => p == c && leadsWith ps cs

/-- Decides whether `pat` occurs as a contiguous sublist. -/
def occursIn (pat : List Char) : List Char → Bool
  | [] => pat.isEmpty
  | c :: cs => leadsWith pat (c :: cs) || occursIn pat cs

/-- JavaScript `String.prototype.includes`: `true` iff `pat` occurs in `s`
(and always `true` for the empty pattern). -/
def strIncludes (s pat : String) : Bool :=
  occursIn pat.toList s.toList

/-- JavaScript `result.error || new Error('Unknown export error')`: the
defaulting applied by `SimpleRetryProcessor` (part_014) and
`createExporterWithRetry` (tracing-resilient.js) before classifying. -/
def errOrDefault (e : Option JsError) : JsError :=
  e.getD { message := "Unknown export error", code := none }

/-- Embedding of `CustomRetryProcessor.isRetryableError`
(otel-retry-processor.ts lines 104-135) and the textually identical
`SimpleRetryProcessor.isRetryableError` (part_014 lines 77-108): an error
is retryable when its message contains one of the configured strings, or
its code equals one of them, or its code is one of five hard-coded
network error codes.  The `!isEmpty` guards mirror the JS truthiness
checks `if (error.message)` / `if (error.code)`. -/
def isRetryableError (error : Option JsError) (retryableErrors : List String) : Bool :=
  match error with
  | none => false
  | some e =>
    (!e.message.isEmpty && retryableErrors.any (fun r => strIncludes e.message r))
    || (match e.code with
        | some c => !c.isEmpty && retryableErrors.any (fun r => c == r)
        | none => false)
    || (e.code == some "ECONNRESET" || e.code == some "ETIMEDOUT"
        || e.code == some "ECONNREFUSED" || e.code == some "EHOSTUNREACH"
        || e.code == some "ENETUNREACH")

/-- The retryable-error list configured in
`src/NodeFortuneApi/src/tracing-resilient.ts` lines 135-142 and used as
the default in `SimpleRetryProcessor` (part_014 lines 8-15). -/
def defaultRetryableErrors : List String :=
  ["ECONNRESET", "ETIMEDOUT", "ECONNREFUSED", "EHOSTUNREACH", "ENETUNREACH",
   "socket hang up"]

/-- The `Error` synthesized inside `CustomRetryProcessor.wrapExporter`
(otel-retry-processor.ts line 63) when the inner export fails:
`new Error("Export failed with code " + code + ": " + (error?.message || "Unknown error"))`.
Note that this wrapper error has no `code` property, so only the
message-substring branch of `isRetryableError` can fire for it. -/
def wrapError (r : ExportResult) : JsError :=
  { message := "Export failed with code " ++ toString r.code ++ ": " ++
      (match r.error with
       | some e => if e.message.isEmpty then "Unknown error" else e.message
       | none => "Unknown error")
    code := none }

/-! ## Retry loop embeddings

A transport is a function from the 0-based attempt index to the
`ExportResult` that attempt produces.  A run is summarized by the number
of attempts made, the list of delays slept between attempts (in order),
and the `ExportResult` finally handed to the caller's `resultCallback`. -/

structure RetryTrace where
  attempts : Nat
  sleeps : List Nat
  result : ExportResult
deriving DecidableEq

/-- Recursive core of `CustomRetryProcessor.wrapExporter`
(otel-retry-processor.ts lines 56-94).  `fuel` is the number of retries
still allowed: the source retries while
`isRetryable && currentAttempt <= maxRetries`, where `currentAttempt` is
the number of attempts already made, so after the attempt with 0-based
index `idx` a retry happens iff the error is retryable and
`maxRetries - idx > 0`; `fuel = maxRetries - idx` makes this structural.
On success the callback receives `{ code: 0 }`; on terminal failure it
receives `{ code: 1, error }` with the synthesized wrapper error. -/
def wrapGo (transport : Nat → ExportResult) (retryDelayMs : Nat)
    (retryableErrors : List String) : Nat → Nat → RetryTrace
  | 0, idx =>
    let r := transport idx
    if r.code = 0 then
      { attempts := 1, sleeps := [], result := { code := 0, error := none } }
    else
      { attempts := 1, sleeps := [], result := { code := 1, error := some (wrapError r) } }
  | fuel + 1, idx =>
    let r := transport idx
    if r.code = 0 then
      { attempts := 1, sleeps := [], result := { code := 0, error := none } }
    else if isRetryableError (some (wrapError r)) retryableErrors then
      let t := wrapGo transport retryDelayMs retryableErrors fuel (idx + 1)
      { attempts := t.attempts + 1, sleeps := retryDelayMs :: t.sleeps,
        result := t.result }
    else
      { attempts := 1, sleeps := [], result := { code := 1, error := some (wrapError r) } }

/-- A full run of the exporter wrapped by
`CustomRetryProcessor.wrapExporter` (otel-retry-processor.ts). -/
def wrapExporterRun (transport : Nat → ExportResult) (maxRetries retryDelayMs : Nat)
    (retryableErrors : List String) : RetryTrace :=
  wrapGo transport retryDelayMs retryableErrors maxRetries 0

/-- Recursive core of `SimpleRetryProcessor.wrapExporter`
(part_014 lines 30-67).  The retry condition is
`result.code !== 0 && currentAttempt <= maxRetries` and the error
(defaulted by `result.error || new Error('Unknown export error')`) being
retryable; the terminal `resultCallback(result)` passes the last
transport result straight through. -/
def simpleGo (transport : Nat → ExportResult) (retryDelayMs : Nat)
    (retryableErrors : List String) : Nat → Nat → RetryTrace
  | 0, idx =>
    { attempts := 1, sleeps := [], result := transport idx }
  | fuel + 1, idx =>
    let r := transport idx
    if r.code ≠ 0 && isRetryableError (some (errOrDefault r.error)) retryableErrors then
      let t := simpleGo transport retryDelayMs retryableErrors fuel (idx + 1)
      { attempts := t.attempts + 1, sleeps := retryDelayMs :: t.sleeps,
        result := t.result }
    else
      { attempts := 1, sleeps := [], result := r }

/-- A full run of an exporter wrapped by `SimpleRetryProcessor`
(part_014): the retry budget matches `currentAttempt <= maxRetries`. -/
def simpleRetryRun (transport : Nat → ExportResult) (maxRetries retryDelayMs : Nat)
    (retryableErrors : List String) : RetryTrace :=
  simpleGo transport retryDelayMs retryableErrors maxRetries 0

/-- Network-error test of `createExporterWithRetry`
(tracing-resilient.js lines 68-71): only the three codes ECONNRESET,
ETIMEDOUT, ECONNREFUSED and the message substring "socket hang up" count. -/
def spaIsNetworkError (e : JsError) : Bool :=
  e.code == some "ECONNRESET" || e.code == some "ETIMEDOUT"
    || e.code == some "ECONNREFUSED" || strIncludes e.message "socket hang up"

/-- Recursive core of `createExporterWithRetry`
(tracing-resilient.js lines 56-89).  The retry condition is
`result.code !== 0 && currentAttempt < options.maxRetries` (strict!)
and `isNetworkError`; with `currentAttempt = idx + 1` after the attempt
with 0-based index `idx`, a retry happens iff `idx + 1 < maxRetries`,
so the initial fuel is `maxRetries - 1`.  The terminal
`resultCallback(result)` passes the last transport result through. -/
def spaGo (transport : Nat → ExportResult) (retryDelayMs : Nat) :
    Nat → Nat → RetryTrace
  | 0, idx =>
    { attempts := 1, sleeps := [], result := transport idx }
  | fuel + 1, idx =>
    let r := transport idx
    if r.code ≠ 0 && spaIsNetworkError (errOrDefault r.error) then
      let t := spaGo transport retryDelayMs fuel (idx + 1)
      { attempts := t.attempts + 1, sleeps := retryDelayMs :: t.sleeps,
        result := t.result }
    else
      { attempts := 1, sleeps := [], result := r }

/-- A full run of an exporter wrapped by `createExporterWithRetry`
(tracing-resilient.js): the strict bound `currentAttempt < maxRetries`
gives an initial retry budget of `maxRetries - 1`. -/
def spaRetryRun (transport : Nat → ExportResult) (maxRetries retryDelayMs : Nat) :
    RetryTrace :=
  spaGo transport retryDelayMs (maxRetries - 1) 0

/-- A transport that fails every attempt with a typical Node connection
reset: code ECONNRESET, message "read ECONNRESET". -/
def alwaysResetTransport : Nat → ExportResult := fun _ =>
  { code := 1, error := some { message := "read ECONNRESET", code := some "ECONNRESET" } }

/-- A transport that fails every attempt with a non-retryable client
error: code EFATAL (not in any retryable set), message "bad request". -/
def alwaysFatalTransport : Nat → ExportResult := fun _ =>
  { code := 1, error := some { message := "bad request", code := some "EFATAL" } }

/-! ### Helper lemmas about the retry loops -/

/-- When every attempt fails with an error the `CustomRetryProcessor`
classifier deems retryable, `wrapGo` uses all its fuel: `fuel + 1`
attempts and `fuel` constant sleeps. -/
lemma wrapGo_always_retryable (transport : Nat → ExportResult) (delay : Nat)
    (retryable : List String)
    (hfail : ∀ i, (transport i).code ≠ 0)
    (hretry : ∀ i, isRetryableError (some (wrapError (transport i))) retryable = true) :
    ∀ fuel idx, (wrapGo transport delay retryable fuel idx).attempts = fuel + 1 ∧
      (wrapGo transport delay retryable fuel idx).sleeps = List.replicate fuel delay := by
  intro fuel
  induction fuel with
  | zero => intro idx; simp [wrapGo, hfail idx]
  | succ f ih =>
    intro idx
    have h1 := (ih (idx + 1)).1
    have h2 := (ih (idx + 1)).2
    simp [wrapGo, hfail idx, hretry idx, h1, h2, List.replicate]

/-- When every attempt fails with an error the `SimpleRetryProcessor`
classifier deems retryable, `simpleGo` uses all its fuel. -/
lemma simpleGo_always_retryable (transport : Nat → ExportResult) (delay : Nat)
    (retryable : List String)
    (hfail : ∀ i, (transport i).code ≠ 0)
    (hretry : ∀ i, isRetryableError (some (errOrDefault (transport i).error)) retryable = true) :
    ∀ fuel idx, (simpleGo transport delay retryable fuel idx).attempts = fuel + 1 ∧
      (simpleGo transport delay retryable fuel idx).sleeps = List.replicate fuel delay := by
  intro fuel
  induction fuel with
  | zero => intro idx; simp [simpleGo]
  | succ f ih =>
    intro idx
    have h1 := (ih (idx + 1)).1
    have h2 := (ih (idx + 1)).2
    simp [simpleGo, hfail idx, hretry idx, h1, h2, List.replicate]

/-- When every attempt fails with an error the `createExporterWithRetry`
classifier deems a network error, `spaGo` uses all its fuel. -/
lemma spaGo_always_retryable (transport : Nat → ExportResult) (delay : Nat)
    (hfail : ∀ i, (transport i).code ≠ 0)
    (hretry : ∀ i, spaIsNetworkError (errOrDefault (transport i).error) = true) :
    ∀ fuel idx, (spaGo transport delay fuel idx).attempts = fuel + 1 ∧
      (spaGo transport delay fuel idx).sleeps = List.replicate fuel delay := by
  intro fuel
  induction fuel with
  | zero => intro idx; simp [spaGo]
  | succ f ih =>
    intro idx
    have h1 := (ih (idx + 1)).1
    have h2 := (ih (idx + 1)).2
    simp [spaGo, hfail idx, hretry idx, h1, h2, List.replicate]

/-- On a first attempt that fails non-retryably, `wrapGo` stops at once
whatever its fuel. -/
lemma wrapGo_fatal (transport : Nat → ExportResult) (delay : Nat)
    (retryable : List String) (idx : Nat)
    (hfail : (transport idx).code ≠ 0)
    (hnr : isRetryableError (some (wrapError (transport idx))) retryable = false) :
    ∀ fuel, wrapGo transport delay retryable fuel idx =
      { attempts := 1, sleeps := [],
        result := { code := 1, error := some (wrapError (transport idx)) } } := by
  intro fuel
  cases fuel with
  | zero => simp [wrapGo, hfail]
  | succ f => simp [wrapGo, hfail, hnr]

/-- On a first attempt that fails non-retryably, `simpleGo` stops at once
whatever its fuel, passing the transport result through. -/
lemma simpleGo_fatal (transport : Nat → ExportResult) (delay : Nat)
    (retryable : List String) (idx : Nat)
    (hnr : isRetryableError (some (errOrDefault (transport idx).error)) retryable = false) :
    ∀ fuel, simpleGo transport delay retryable fuel idx =
      { attempts := 1, sleeps := [], result := transport idx } := by
  intro fuel
  cases fuel with
  | zero => simp [simpleGo]
  | succ f => simp [simpleGo, hnr]

/-- On a first attempt that fails non-retryably, `spaGo` stops at once
whatever its fuel, passing the transport result through. -/
lemma spaGo_fatal (transport : Nat → ExportResult) (delay : Nat) (idx : Nat)
    (hnr : spaIsNetworkError (errOrDefault (transport idx).error) = false) :
    ∀ fuel, spaGo transport delay fuel idx =
      { attempts := 1, sleeps := [], result := transport idx } := by
  intro fuel
  cases fuel with
  | zero => simp [spaGo]
  | succ f => simp [spaGo, hnr]

/-! ### Claims C1, C2, C3 -/

/-- C1 (counterexample).  The claim says every retry wrapper makes exactly
`maxRetries + 1` attempts against a persistently retryable-failing
transport.  `createExporterWithRetry` (tracing-resilient.js line 65 uses
the strict bound `currentAttempt < options.maxRetries`) makes exactly
`maxRetries` attempts: with the default `maxRetries = 5` and a transport
that always fails with ECONNRESET it makes 5 attempts, not 6. -/
theorem spa_retry_makes_only_maxRetries_attempts :
    (spaRetryRun alwaysResetTransport 5 1000).attempts = 5 ∧
    (spaRetryRun alwaysResetTransport 5 1000).attempts ≠ 5 + 1 := by decide

/-- C1 (amended).  Against a transport that always fails with an error
every classifier involved deems retryable, the `CustomRetryProcessor`
wrapper and the `SimpleRetryProcessor` wrapper make exactly
`maxRetries + 1` attempts, while the `createExporterWithRetry` wrapper of
the SPA makes exactly `max maxRetries 1` attempts (so `maxRetries`, one
fewer, for every positive `maxRetries`). -/
theorem retry_attempt_counts (maxRetries delay : Nat) (retryable : List String)
    (transport : Nat → ExportResult)
    (hfail : ∀ i, (transport i).code ≠ 0)
    (hwrap : ∀ i, isRetryableError (some (wrapError (transport i))) retryable = true)
    (hsimple : ∀ i, isRetryableError (some (errOrDefault (transport i).error)) retryable = true)
    (hspa : ∀ i, spaIsNetworkError (errOrDefault (transport i).error) = true) :
    (wrapExporterRun transport maxRetries delay retryable).attempts = maxRetries + 1 ∧
    (simpleRetryRun transport maxRetries delay retryable).attempts = maxRetries + 1 ∧
    (spaRetryRun transport maxRetries delay).attempts = max maxRetries 1 := by
  refine ⟨?_, ?_, ?_⟩
  · exact (wrapGo_always_retryable transport delay retryable hfail hwrap maxRetries 0).1
  · exact (simpleGo_always_retryable transport delay retryable hfail hsimple maxRetries 0).1
  · have h := (spaGo_always_retryable transport delay hfail hspa (maxRetries - 1) 0).1
    unfold spaRetryRun
    omega

/-- C1 (witness): the amended count at the default configuration
`maxRetries = 5`, `retryDelayMs = 1000`, against a transport failing every
attempt with ECONNRESET. -/
theorem retry_attempt_counts_witness :
    (wrapExporterRun alwaysResetTransport 5 1000 defaultRetryableErrors).attempts = 5 + 1 ∧
    (simpleRetryRun alwaysResetTransport 5 1000 defaultRetryableErrors).attempts = 5 + 1 ∧
    (spaRetryRun alwaysResetTransport 5 1000).attempts = max 5 1 :=
  retry_attempt_counts 5 1000 defaultRetryableErrors alwaysResetTransport
    (fun _ => (by decide : (alwaysResetTransport 0).code ≠ 0))
    (fun _ => (by decide : isRetryableError (some (wrapError (alwaysResetTransport 0)))
      defaultRetryableErrors = true))
    (fun _ => (by decide : isRetryableError (some (errOrDefault (alwaysResetTransport 0).error))
      defaultRetryableErrors = true))
    (fun _ => (by decide : spaIsNetworkError (errOrDefault (alwaysResetTransport 0).error) = true))

/-- C2 (counterexample).  The claim says the delay before the retry after
attempt `k` is `baseDelay * 2^k`, so over five retries the sleeps are
`[1000, 2000, 4000, 8000, 16000]` at the default base of 1000 ms.  The
`CustomRetryProcessor` run at the default configuration sleeps the
constant `retryDelayMs` before every retry instead. -/
theorem retry_delay_not_exponential :
    (wrapExporterRun alwaysResetTransport 5 1000 defaultRetryableErrors).sleeps
      = [1000, 1000, 1000, 1000, 1000] ∧
    (wrapExporterRun alwaysResetTransport 5 1000 defaultRetryableErrors).sleeps
      ≠ [1000, 2000, 4000, 8000, 16000] := by decide

/-- C2 (amended).  All three retry wrappers sleep the constant
`retryDelayMs` (default 1000 ms) before every retry: the sleeps of a run
that exhausts its retry budget form a constant list, with no exponential
growth and no cap logic. -/
theorem retry_delays_constant (maxRetries delay : Nat) (retryable : List String)
    (transport : Nat → ExportResult)
    (hfail : ∀ i, (transport i).code ≠ 0)
    (hwrap : ∀ i, isRetryableError (some (wrapError (transport i))) retryable = true)
    (hsimple : ∀ i, isRetryableError (some (errOrDefault (transport i).error)) retryable = true)
    (hspa : ∀ i, spaIsNetworkError (errOrDefault (transport i).error) = true) :
    (wrapExporterRun transport maxRetries delay retryable).sleeps
      = List.replicate maxRetries delay ∧
    (simpleRetryRun transport maxRetries delay retryable).sleeps
      = List.replicate maxRetries delay ∧
    (spaRetryRun transport maxRetries delay).sleeps
      = List.replicate (maxRetries - 1) delay := by
  refine ⟨?_, ?_, ?_⟩
  · exact (wrapGo_always_retryable transport delay retryable hfail hwrap maxRetries 0).2
  · exact (simpleGo_always_retryable transport delay retryable hfail hsimple maxRetries 0).2
  · exact (spaGo_always_retryable transport delay hfail hspa (maxRetries - 1) 0).2

/-- C2 (witness): the constant sleeps at the default configuration. -/
theorem retry_delays_constant_witness :
    (wrapExporterRun alwaysResetTransport 5 1000 defaultRetryableErrors).sleeps
      = List.replicate 5 1000 ∧
    (simpleRetryRun alwaysResetTransport 5 1000 defaultRetryableErrors).sleeps
      = List.replicate 5 1000 ∧
    (spaRetryRun alwaysResetTransport 5 1000).sleeps = List.replicate (5 - 1) 1000 :=
  retry_delays_constant 5 1000 defaultRetryableErrors alwaysResetTransport
    (fun _ => (by decide : (alwaysResetTransport 0).code ≠ 0))
    (fun _ => (by decide : isRetryableError (some (wrapError (alwaysResetTransport 0)))
      defaultRetryableErrors = true))
    (fun _ => (by decide : isRetryableError (some (errOrDefault (alwaysResetTransport 0).error))
      defaultRetryableErrors = true))
    (fun _ => (by decide : spaIsNetworkError (errOrDefault (alwaysResetTransport 0).error) = true))

/-- C3 (confirmed).  When the first attempt fails with an error that no
classifier deems retryable, each of the three retry wrappers makes
exactly one attempt, sleeps never, and reports failure at once:
`CustomRetryProcessor` reports `{ code: 1 }` with its wrapper error, and
the other two pass the failed transport result straight through. -/
theorem fatal_error_single_attempt (maxRetries delay : Nat) (retryable : List String)
    (transport : Nat → ExportResult)
    (hfail : (transport 0).code ≠ 0)
    (hwrap : isRetryableError (some (wrapError (transport 0))) retryable = false)
    (hsimple : isRetryableError (some (errOrDefault (transport 0).error)) retryable = false)
    (hspa : spaIsNetworkError (errOrDefault (transport 0).error) = false) :
    (wrapExporterRun transport maxRetries delay retryable).attempts = 1 ∧
    (wrapExporterRun transport maxRetries delay retryable).sleeps = [] ∧
    (wrapExporterRun transport maxRetries delay retryable).result.code = 1 ∧
    (simpleRetryRun transport maxRetries delay retryable).attempts = 1 ∧
    (simpleRetryRun transport maxRetries delay retryable).sleeps = [] ∧
    (simpleRetryRun transport maxRetries delay retryable).result = transport 0 ∧
    (spaRetryRun transport maxRetries delay).attempts = 1 ∧
    (spaRetryRun transport maxRetries delay).sleeps = [] ∧
    (spaRetryRun transport maxRetries delay).result = transport 0 := by
  have hw := wrapGo_fatal transport delay retryable 0 hfail hwrap maxRetries
  have hs := simpleGo_fatal transport delay retryable 0 hsimple maxRetries
  have hp := spaGo_fatal transport delay 0 hspa (maxRetries - 1)
  unfold wrapExporterRun simpleRetryRun spaRetryRun
  rw [hw, hs, hp]
  simp

/-- C3 (witness): a transport failing immediately with the non-retryable
error EFATAL / "bad request" produces a single attempt in all three
wrappers. -/
theorem fatal_error_single_attempt_witness :
    (wrapExporterRun alwaysFatalTransport 5 1000 defaultRetryableErrors).attempts = 1 ∧
    (wrapExporterRun alwaysFatalTransport 5 1000 defaultRetryableErrors).sleeps = [] ∧
    (wrapExporterRun alwaysFatalTransport 5 1000 defaultRetryableErrors).result.code = 1 ∧
    (simpleRetryRun alwaysFatalTransport 5 1000 defaultRetryableErrors).attempts = 1 ∧
    (simpleRetryRun alwaysFatalTransport 5 1000 defaultRetryableErrors).sleeps = [] ∧
    (simpleRetryRun alwaysFatalTransport 5 1000 defaultRetryableErrors).result
      = alwaysFatalTransport 0 ∧
    (spaRetryRun alwaysFatalTransport 5 1000).attempts = 1 ∧
    (spaRetryRun alwaysFatalTransport 5 1000).sleeps = [] ∧
    (spaRetryRun alwaysFatalTransport 5 1000).result = alwaysFatalTransport 0 :=
  fatal_error_single_attempt 5 1000 defaultRetryableErrors alwaysFatalTransport
    (by decide) (by decide) (by decide) (by decide)

/-! ## Fallback module and reconnection checker (otel-fallback.js)

`switchToConsoleExporters` registers additional console
processors/readers on the running SDK (`addSpanProcessor` /
`addMetricReader`, lines 62-75) and sets the module variable
`currentMode` to "console"; nothing is ever removed.  The reconnection
checker registered by `registerReconnectionChecker` (lines 114-128) runs
on a timer: each fire returns at once when `currentMode` is not
"console", and otherwise starts an asynchronous connectivity probe; when
the probe completes with `isConnected` the callback sets
`currentMode = "otlp"` (line 123) and does nothing else (the source
comments "Logic to switch back to OTLP would go here").

The state below records the mode, the registered span processors and
metric readers in registration order, and how many probes are currently
in flight.  A timer fire and a probe completion are separate events,
since the probe is asynchronous. -/

inductive ExporterMode
  | otlp
  | console
deriving DecidableEq

inductive SinkKind
  | otlpExporter
  | consoleExporter
deriving DecidableEq

structure FallbackState where
  currentMode : ExporterMode
  spanProcessors : List SinkKind
  metricReaders : List SinkKind
  probesInFlight : Nat
deriving DecidableEq

/-- The SDK as configured at startup: OTLP exporters registered, mode
"otlp" (the default of `process.env.OTLP_FALLBACK_MODE || 'otlp'`), no
probe running. -/
def initialFallbackState : FallbackState :=
  { currentMode := ExporterMode.otlp
    spanProcessors := [SinkKind.otlpExporter]
    metricReaders := [SinkKind.otlpExporter]
    probesInFlight := 0 }

/-- Embedding of `switchToConsoleExporters` (otel-fallback.js lines
40-90): console exporters are ADDED next to the existing ones
(`addSpanProcessor` / `addMetricReader`); the OTLP processors are not
removed; `currentMode` becomes "console". -/
def switchToConsoleExporters (s : FallbackState) : FallbackState :=
  { s with currentMode := ExporterMode.console
           spanProcessors := s.spanProcessors ++ [SinkKind.consoleExporter]
           metricReaders := s.metricReaders ++ [SinkKind.consoleExporter] }

/-- An event of the reconnection checker: the interval timer fires, or an
in-flight connectivity probe completes with the given result. -/
inductive CheckerEvent
  | timerFire
  | probeComplete (isConnected : Bool)

/-- One event of the reconnection checker registered by
`registerReconnectionChecker` (otel-fallback.js lines 114-128).  A timer
fire is skipped only when `currentMode !== 'console'`; there is no check
of whether a probe is already running, so a fire in console mode always
starts one more probe.  A completed probe with `isConnected = true` sets
`currentMode = 'otlp'` and nothing else; the registered exporters are
untouched (the swap-back logic is an unimplemented comment at line
122). -/
def checkerStep (s : FallbackState) : CheckerEvent → FallbackState
  | CheckerEvent.timerFire =>
    if s.currentMode ≠ ExporterMode.console then s
    else { s with probesInFlight := s.probesInFlight + 1 }
  | CheckerEvent.probeComplete isConnected =>
    if s.probesInFlight = 0 then s
    else if isConnected then
      { s with currentMode := ExporterMode.otlp, probesInFlight := s.probesInFlight - 1 }
    else
      { s with probesInFlight := s.probesInFlight - 1 }

/-- A sequence of reconnection checker events applied in order. -/
def checkerRun (s : FallbackState) (events : List CheckerEvent) : FallbackState :=
  events.foldl checkerStep s

/-! ### Claims C4 and C7 -/

/-- C4 (failing input).  Degrade the pipeline with
`switchToConsoleExporters`, then let one reconnection probe succeed: the
mode flag flips back to "otlp", but the console span processor added
while degraded is still registered (and the exporter set is unchanged by
the probe), so subsequent flushes are still delivered to the console
fallback sink - they do not go only to the real OTLP transport as the
claim requires.  The swap-back is an unimplemented placeholder comment in
the source. -/
theorem reconnection_probe_success_keeps_console_sink :
    (checkerRun (switchToConsoleExporters initialFallbackState)
        [CheckerEvent.timerFire, CheckerEvent.probeComplete true]).currentMode
      = ExporterMode.otlp ∧
    (checkerRun (switchToConsoleExporters initialFallbackState)
        [CheckerEvent.timerFire, CheckerEvent.probeComplete true]).spanProcessors
      = [SinkKind.otlpExporter, SinkKind.consoleExporter] ∧
    SinkKind.consoleExporter ∈
      (checkerRun (switchToConsoleExporters initialFallbackState)
        [CheckerEvent.timerFire, CheckerEvent.probeComplete true]).spanProcessors := by
  decide

/-- C7 (counterexample).  Starting from the degraded pipeline with no
probe running, two timer fires with no probe completion in between leave
two probes in flight: the second fire is not ignored, contradicting the
claim that at most one probe is ever in flight. -/
theorem overlapping_timer_fire_starts_second_probe :
    (checkerRun (switchToConsoleExporters initialFallbackState)
        [CheckerEvent.timerFire, CheckerEvent.timerFire]).probesInFlight = 2 := by
  decide

/-- C7 (amended).  The only guard on a timer fire is the mode check
`currentMode !== 'console'`: in console mode every fire starts a new
probe regardless of how many are already running (so probes can overlap),
and in any other mode a fire changes nothing. -/
theorem timer_fire_no_inflight_guard (s : FallbackState) :
    (s.currentMode = ExporterMode.console →
      (checkerStep s CheckerEvent.timerFire).probesInFlight = s.probesInFlight + 1) ∧
    (s.currentMode ≠ ExporterMode.console →
      checkerStep s CheckerEvent.timerFire = s) := by
  constructor <;> intro h <;> simp [checkerStep, h]

/-- C7 (witness): with one probe already in flight in console mode, a
timer fire starts a second one. -/
theorem timer_fire_no_inflight_guard_witness :
    (checkerStep
        { currentMode := ExporterMode.console
          spanProcessors := [SinkKind.otlpExporter, SinkKind.consoleExporter]
          metricReaders := [SinkKind.otlpExporter, SinkKind.consoleExporter]
          probesInFlight := 1 }
        CheckerEvent.timerFire).probesInFlight = 1 + 1 :=
  (timer_fire_no_inflight_guard _).1 (by decide)

/-! ## Process termination handlers (tracing-resilient.ts lines 203-220,
tracing-resilient.js lines 247-264)

Both SIGTERM and SIGINT handlers clear the health-check interval and call
`sdk.shutdown().then(log).catch(logError).finally(() => process.exit(0))`:
the `then`/`catch` continuations only log, and the `finally` exits with
code 0 whether the shutdown promise resolved or rejected. -/

inductive TermSignal
  | sigterm
  | sigint
deriving DecidableEq

/-- Outcome of the `sdk.shutdown()` promise: resolved (final flush
drained) or rejected (drain failed or truncated). -/
inductive ShutdownOutcome
  | resolved
  | rejected
deriving DecidableEq

structure TerminationTrace where
  shutdownInvoked : Bool
  healthTimerCleared : Bool
  exitCode : Nat
deriving DecidableEq

/-- Embedding of the `process.on('SIGTERM')` / `process.on('SIGINT')`
handlers of tracing-resilient.ts / tracing-resilient.js: clear the timer,
invoke shutdown, log, then `process.exit(0)` in the `finally`. -/
def handleTerminationSignal (sig : TermSignal) (outcome : ShutdownOutcome) :
    TerminationTrace :=
  match sig, outcome with
  | TermSignal.sigterm, _ =>
    { shutdownInvoked := true, healthTimerCleared := true, exitCode := 0 }
  | TermSignal.sigint, _ =>
    { shutdownInvoked := true, healthTimerCleared := true, exitCode := 0 }

/-! ### Claim C8 -/

/-- C8 (counterexample).  When the shutdown promise rejects (the final
drain failed), the SIGTERM handler still exits with code 0, because the
exit happens in `.finally(() => process.exit(0))`; the claim requires a
non-zero exit code in this case. -/
theorem failed_shutdown_still_exits_zero :
    (handleTerminationSignal TermSignal.sigterm ShutdownOutcome.rejected).exitCode = 0 := by
  decide

/-- C8 (amended).  On SIGTERM or SIGINT the handler does invoke
`sdk.shutdown()` before the process exits, but the exit code is always 0,
whatever the shutdown outcome: the exit code is a constant, not a
function of whether the final flush drained. -/
theorem termination_signal_shutdown_then_exit_zero (sig : TermSignal)
    (outcome : ShutdownOutcome) :
    (handleTerminationSignal sig outcome).shutdownInvoked = true ∧
    (handleTerminationSignal sig outcome).exitCode = 0 := by
  cases sig <;> cases outcome <;> exact ⟨rfl, rfl⟩

/-! ## Exporter construction (tracing-resilient.ts lines 60-111 and the
structurally identical tracing-resilient.js lines 96-147)

Headers are JavaScript objects; later assignments override earlier ones.
They are modelled as lookup functions from header name to optional
value. -/

/-- A JavaScript header object, as a lookup function. -/
abbrev HeaderMap := String → Option String

/-- The empty header object `{}`. -/
def emptyHeaders : HeaderMap := fun _ => none

/-- Property assignment `obj[k] = v`. -/
def setHeader (m : HeaderMap) (k v : String) : HeaderMap :=
  fun q => if q = k then some v else m q

/-- Object spread `{ ...base, ...extra }` where `extra` is an entry list
in insertion order: later entries override. -/
def spreadHeaders (base : HeaderMap) (extra : List (String × String)) : HeaderMap :=
  extra.foldl (fun acc kv => setHeader acc kv.1 kv.2) base

/-- The header object built from an entry list alone. -/
def headersOf (entries : List (String × String)) : HeaderMap :=
  spreadHeaders emptyHeaders entries

/-- Embedding of `parseOtlpHeaders` (tracing-resilient.ts lines 28-40,
tracing-resilient.js lines 28-40): split the configured string on commas,
trim each pair, split on the first `=`, and keep `key.trim() -> value.trim()`
when both untrimmed parts are nonempty.  Returned as the entry list the
reduce builds, in order. -/
def parseOtlpHeaders (headerString : String) : List (String × String) :=
  if headerString.isEmpty then []
  else
    ((headerString.splitOn ",").map String.trim).foldl
      (fun acc pair =>
        match pair.splitOn "=" with
        | k :: v :: _ =>
          if !k.isEmpty && !v.isEmpty then acc ++ [(k.trim, v.trim)] else acc
        | _ => acc)
      []

/-- Configuration passed to `new OTLPTraceExporter(...)` /
`new OTLPMetricExporter(...)`. -/
structure ExporterConfig where
  url : String
  headers : HeaderMap
  concurrencyLimit : Nat
  timeoutMillis : Nat

/-- The trace and metric exporter configurations the construction
produces. -/
structure ExporterPair where
  traceExporter : ExporterConfig
  metricExporter : ExporterConfig

/-- Embedding of the protocol branch that builds both exporters
(tracing-resilient.ts lines 61-111, tracing-resilient.js lines 97-147):
`grpc` uses the base gRPC endpoint with only the additional headers;
`http/protobuf` appends `/v1/traces` and `/v1/metrics` to the HTTP
endpoint and sets `Content-Type: application/x-protobuf` before spreading
the additional headers; every other selector logs a warning and builds
the same configuration as the `grpc` branch. -/
def buildExporters (otlpProtocol otlpEndpoint otlpHttpEndpoint : String)
    (additionalHeaders : List (String × String)) : ExporterPair :=
  if otlpProtocol = "grpc" then
    { traceExporter :=
        { url := otlpEndpoint, headers := headersOf additionalHeaders,
          concurrencyLimit := 10, timeoutMillis := 30000 }
      metricExporter :=
        { url := otlpEndpoint, headers := headersOf additionalHeaders,
          concurrencyLimit := 10, timeoutMillis := 30000 } }
  else if otlpProtocol = "http/protobuf" then
    let exporterHeaders :=
      spreadHeaders (setHeader emptyHeaders "Content-Type" "application/x-protobuf")
        additionalHeaders
    { traceExporter :=
        { url := otlpHttpEndpoint ++ "/v1/traces", headers := exporterHeaders,
          concurrencyLimit := 10, timeoutMillis := 30000 }
      metricExporter :=
        { url := otlpHttpEndpoint ++ "/v1/metrics", headers := exporterHeaders,
          concurrencyLimit := 10, timeoutMillis := 30000 } }
  else
    { traceExporter :=
        { url := otlpEndpoint, headers := headersOf additionalHeaders,
          concurrencyLimit := 10, timeoutMillis := 30000 }
      metricExporter :=
        { url := otlpEndpoint, headers := headersOf additionalHeaders,
          concurrencyLimit := 10, timeoutMillis := 30000 } }

/-- Spreading entries that never assign key `k` leaves the lookup of `k`
unchanged. -/
lemma spreadHeaders_lookup_of_not_mem (k : String) (extra : List (String × String)) :
    ∀ base : HeaderMap, (∀ v, (k, v) ∉ extra) → spreadHeaders base extra k = base k := by
  induction extra with
  | nil => intro base _; rfl
  | cons kv rest ih =>
    intro base h
    have hk : k ≠ kv.1 := by
      intro he
      exact h kv.2 (by simp [he])
    have hrest : ∀ v, (k, v) ∉ rest := fun v hv => h v (List.mem_cons_of_mem _ hv)
    calc spreadHeaders base (kv :: rest) k
        = spreadHeaders (setHeader base kv.1 kv.2) rest k := rfl
      _ = setHeader base kv.1 kv.2 k := ih _ hrest
      _ = base k := by simp [setHeader, hk]

/-! ### Claims C6 and C9 -/

/-- C6 (confirmed).  Under the `http/protobuf` selector, the trace
exporter is configured with URL `otlpHttpEndpoint ++ "/v1/traces"`, the
metric exporter with `otlpHttpEndpoint ++ "/v1/metrics"`, and both carry
the header `Content-Type: application/x-protobuf` (provided the extra
headers parsed from the environment do not themselves assign
Content-Type, which would override it in the object spread). -/
theorem http_protobuf_urls_and_content_type (otlpEndpoint otlpHttpEndpoint : String)
    (additionalHeaders : List (String × String))
    (h : ∀ v, ("Content-Type", v) ∉ additionalHeaders) :
    (buildExporters "http/protobuf" otlpEndpoint otlpHttpEndpoint
        additionalHeaders).traceExporter.url = otlpHttpEndpoint ++ "/v1/traces" ∧
    (buildExporters "http/protobuf" otlpEndpoint otlpHttpEndpoint
        additionalHeaders).metricExporter.url = otlpHttpEndpoint ++ "/v1/metrics" ∧
    (buildExporters "http/protobuf" otlpEndpoint otlpHttpEndpoint
        additionalHeaders).traceExporter.headers "Content-Type"
      = some "application/x-protobuf" ∧
    (buildExporters "http/protobuf" otlpEndpoint otlpHttpEndpoint
        additionalHeaders).metricExporter.headers "Content-Type"
      = some "application/x-protobuf" := by
  have hbase :
      spreadHeaders (setHeader emptyHeaders "Content-Type" "application/x-protobuf")
        additionalHeaders "Content-Type" = some "application/x-protobuf" := by
    rw [spreadHeaders_lookup_of_not_mem "Content-Type" additionalHeaders _ h]
    simp [setHeader]
  refine ⟨rfl, rfl, ?_, ?_⟩ <;> simpa [buildExporters] using hbase

/-- C6 (witness): with no additional environment headers, the default
case, the URLs get the `/v1/traces` / `/v1/metrics` suffixes and
Content-Type is `application/x-protobuf`. -/
theorem http_protobuf_urls_and_content_type_witness :
    (buildExporters "http/protobuf" "http://localhost:4317" "http://localhost:18890"
        []).traceExporter.url = "http://localhost:18890" ++ "/v1/traces" ∧
    (buildExporters "http/protobuf" "http://localhost:4317" "http://localhost:18890"
        []).metricExporter.url = "http://localhost:18890" ++ "/v1/metrics" ∧
    (buildExporters "http/protobuf" "http://localhost:4317" "http://localhost:18890"
        []).traceExporter.headers "Content-Type" = some "application/x-protobuf" ∧
    (buildExporters "http/protobuf" "http://localhost:4317" "http://localhost:18890"
        []).metricExporter.headers "Content-Type" = some "application/x-protobuf" :=
  http_protobuf_urls_and_content_type "http://localhost:4317" "http://localhost:18890" []
    (fun v hv => by simp at hv)

/-- C9 (confirmed).  Every selector other than `grpc` and
`http/protobuf` (misspellings, the empty string, plain `http`) falls into
the final `else` branch, producing the exact configuration of the `grpc`
branch: base gRPC endpoint URL, no `/v1` suffix, only the additional
headers (so no protobuf Content-Type unless the environment supplied
one), and construction never fails. -/
theorem unsupported_protocol_falls_back_to_grpc (p otlpEndpoint otlpHttpEndpoint : String)
    (additionalHeaders : List (String × String))
    (h1 : p ≠ "grpc") (h2 : p ≠ "http/protobuf") :
    buildExporters p otlpEndpoint otlpHttpEndpoint additionalHeaders
      = buildExporters "grpc" otlpEndpoint otlpHttpEndpoint additionalHeaders ∧
    (buildExporters p otlpEndpoint otlpHttpEndpoint additionalHeaders).traceExporter.url
      = otlpEndpoint ∧
    (buildExporters p otlpEndpoint otlpHttpEndpoint additionalHeaders).metricExporter.url
      = otlpEndpoint ∧
    (buildExporters p otlpEndpoint otlpHttpEndpoint
        additionalHeaders).traceExporter.headers = headersOf additionalHeaders := by
  refine ⟨?_, ?_, ?_, ?_⟩ <;> simp [buildExporters, h1, h2]

/-- C9 (witness): the misspelled selector `http` yields the gRPC
configuration. -/
theorem unsupported_protocol_falls_back_to_grpc_witness :
    buildExporters "http" "http://localhost:4317" "http://localhost:18890" []
      = buildExporters "grpc" "http://localhost:4317" "http://localhost:18890" [] ∧
    (buildExporters "http" "http://localhost:4317" "http://localhost:18890"
        []).traceExporter.url = "http://localhost:4317" ∧
    (buildExporters "http" "http://localhost:4317" "http://localhost:18890"
        []).metricExporter.url = "http://localhost:4317" ∧
    (buildExporters "http" "http://localhost:4317" "http://localhost:18890"
        []).traceExporter.headers = headersOf [] :=
  unsupported_protocol_falls_back_to_grpc "http" "http://localhost:4317"
    "http://localhost:18890" [] (by decide) (by decide)

/-! ## Connectivity testing (otel-connectivity.ts)

The network is an oracle: `tcpOk host port` is the resolved value of
`testTcpConnection` (`true` on connect, `false` on timeout or error - the
promise executor only ever resolves, never rejects), and `httpOk url` is
whether the OPTIONS request of `testHttpEndpoint` gets any response
(`false` on timeout or request error).

`new URL(...)` is modelled by `parseUrl`, a model of the WHATWG URL
parser restricted to the `scheme://host[:port][/path]` shapes this code
passes to it; a string without the `://` separator or with an empty
scheme or host is malformed and makes `new URL` throw, which `parseUrl`
renders as `none`. -/

structure UrlParts where
  protocol : String
  hostname : String
  port : String
deriving DecidableEq

/-- Splits at the first occurrence of `sep`, returning the parts before
and after it, or `none` when `sep` does not occur. -/
def breakOnSub (sep : List Char) : List Char → Option (List Char × List Char)
  | [] => if sep.isEmpty then some ([], []) else none
  | c :: cs =>
    if leadsWith sep (c :: cs) then some ([], (c :: cs).drop sep.length)
    else
      match breakOnSub sep cs with
      | some (pre, post) => some (c :: pre, post)
      | none => none

/-- Model of `new URL(s)` for `scheme://host[:port][/path]` inputs:
protocol keeps its trailing colon, the port may be empty, anything after
the first `/` of the authority part is ignored.  Malformed inputs give
`none` (the constructor throws). -/
def parseUrl (s : String) : Option UrlParts :=
  match breakOnSub "://".toList s.toList with
  | none => none
  | some (scheme, rest) =>
    if scheme.isEmpty || rest.isEmpty then none
    else
      let hostport :=
        match breakOnSub "/".toList rest with
        | some (pre, _) => pre
        | none => rest
      match breakOnSub ":".toList hostport with
      | none =>
        if hostport.isEmpty then none
        else some { protocol := String.mk scheme ++ ":",
                    hostname := String.mk hostport, port := "" }
      | some (h, p) =>
        if h.isEmpty then none
        else some { protocol := String.mk scheme ++ ":",
                    hostname := String.mk h, port := String.mk p }

/-- Digit-string to number, as `parseInt(_, 10)` behaves on the digit
strings URL ports are. -/
def digitsToNat : List Char → Nat → Nat
  | [], acc => acc
  | c :: cs, acc => digitsToNat cs (acc * 10 + (c.toNat - 48))

/-- `url.port ? parseInt(url.port, 10) : (protocol === 'https:' ? 443 : 80)`
(otel-connectivity.ts line 21 and lines 138-139). -/
def effectivePort (u : UrlParts) : Nat :=
  if u.port = "" then (if u.protocol = "https:" then 443 else 80)
  else digitsToNat u.port.toList 0

/-- The mutable environment the connectivity tester can write:
`process.env.OTEL_EXPORTER_OTLP_ENDPOINT`. -/
structure OtlpEnv where
  otlpEndpoint : Option String
deriving DecidableEq

/-- The network oracle. -/
structure NetWorld where
  tcpOk : String → Nat → Bool
  httpOk : String → Bool

/-- Embedding of `testTcpConnection` (otel-connectivity.ts lines 50-72):
resolves with the oracle answer, never rejects. -/
def testTcpConnection (w : NetWorld) (hostname : String) (port : Nat) : Bool :=
  w.tcpOk hostname port

/-- Embedding of `testHttpEndpoint` (otel-connectivity.ts lines 77-108):
any HTTP response counts as success; a request error or timeout, or a
`new URL` throw caught by the internal try, resolves `false`. -/
def testHttpEndpoint (w : NetWorld) (urlString : String) : Bool :=
  match parseUrl urlString with
  | none => false
  | some _ => w.httpOk urlString

/-- The alternative endpoint list of `tryAlternativeEndpoints`
(otel-connectivity.ts lines 118-130), built from the parsed original
URL with `${url.port || '4318'}`. -/
def alternativeEndpoints (u : UrlParts) : List String :=
  let portDefault := if u.port = "" then "4318" else u.port
  [u.protocol ++ "//host.docker.internal:" ++ portDefault,
   u.protocol ++ "//aspire-dashboard.aspire-dashboard:" ++ portDefault,
   u.protocol ++ "//localhost:" ++ portDefault,
   "http://localhost:4317",
   "http://localhost:4318",
   "http://127.0.0.1:4318"]

/-- The `for (const alt of alternatives)` loop of
`tryAlternativeEndpoints` (otel-connectivity.ts lines 132-150): skip the
original URL; on a parse error the inner catch moves on; on TCP success
write the alternative into `process.env.OTEL_EXPORTER_OTLP_ENDPOINT` and
return `true`; otherwise keep going, returning `false` with the
environment untouched when the list is exhausted. -/
def tryAlternativeLoop (w : NetWorld) (originalUrl : String) (env : OtlpEnv) :
    List String → Bool × OtlpEnv
  | [] => (false, env)
  | alt :: rest =>
    if alt = originalUrl then tryAlternativeLoop w originalUrl env rest
    else
      match parseUrl alt with
      | none => tryAlternativeLoop w originalUrl env rest
      | some au =>
        if testTcpConnection w au.hostname (effectivePort au) then
          (true, { otlpEndpoint := some alt })
        else tryAlternativeLoop w originalUrl env rest

/-- Embedding of `tryAlternativeEndpoints` (otel-connectivity.ts lines
113-158): re-parse the original URL (outer catch resolves `false` on a
throw), then run the loop. -/
def tryAlternativeEndpoints (w : NetWorld) (originalUrl : String) (env : OtlpEnv) :
    Bool × OtlpEnv :=
  match parseUrl originalUrl with
  | none => (false, env)
  | some u => tryAlternativeLoop w originalUrl env (alternativeEndpoints u)

/-- The try-block body of `testOtlpEndpoint` (otel-connectivity.ts lines
17-40): `new URL` may throw (the `Except.error` case); then TCP
connectivity is tested, falling back to the alternative scan on failure,
and to an HTTP probe of the same URL on success. -/
def testOtlpEndpointBody (w : NetWorld) (urlString : String) (env : OtlpEnv) :
    Except String (Bool × OtlpEnv) :=
  match parseUrl urlString with
  | none => Except.error "Invalid URL"
  | some u =>
    if testTcpConnection w u.hostname (effectivePort u) then
      Except.ok (testHttpEndpoint w urlString, env)
    else
      Except.ok (tryAlternativeEndpoints w urlString env)

/-- Embedding of `testOtlpEndpoint` (otel-connectivity.ts lines 14-45):
the surrounding try/catch turns any throw into a resolved `false`, so
the function always resolves to a boolean. -/
def testOtlpEndpoint (w : NetWorld) (urlString : String) (env : OtlpEnv) :
    Bool × OtlpEnv :=
  match testOtlpEndpointBody w urlString env with
  | Except.ok r => r
  | Except.error _ => (false, env)

/-- If no acceptable alternative connects, the loop returns `false` and
leaves the environment untouched. -/
lemma tryAlternativeLoop_all_fail (w : NetWorld) (originalUrl : String) (env : OtlpEnv) :
    ∀ alts : List String,
      (∀ alt, alt ∈ alts → alt ≠ originalUrl →
        ∀ au, parseUrl alt = some au → w.tcpOk au.hostname (effectivePort au) = false) →
      tryAlternativeLoop w originalUrl env alts = (false, env) := by
  intro alts
  induction alts with
  | nil => intro _; rfl
  | cons a rest ih =>
    intro h
    have hrest : ∀ alt, alt ∈ rest → alt ≠ originalUrl →
        ∀ au, parseUrl alt = some au → w.tcpOk au.hostname (effectivePort au) = false :=
      fun alt hm => h alt (List.mem_cons_of_mem _ hm)
    by_cases ha : a = originalUrl
    · simpa [tryAlternativeLoop, ha] using ih hrest
    · cases hp : parseUrl a with
      | none => simpa [tryAlternativeLoop, ha, hp] using ih hrest
      | some au =>
        have htcp := h a (List.mem_cons_self _ _) ha au hp
        simpa [tryAlternativeLoop, ha, hp, testTcpConnection, htcp] using ih hrest

/-- Either the loop leaves the environment alone, or some alternative in
the list (distinct from the original, parseable, TCP-reachable) has been
written into `OTEL_EXPORTER_OTLP_ENDPOINT`. -/
lemma tryAlternativeLoop_env_cases (w : NetWorld) (originalUrl : String) (env : OtlpEnv) :
    ∀ alts : List String,
      (tryAlternativeLoop w originalUrl env alts).2 = env ∨
      ∃ alt au, alt ∈ alts ∧ alt ≠ originalUrl ∧ parseUrl alt = some au ∧
        w.tcpOk au.hostname (effectivePort au) = true ∧
        (tryAlternativeLoop w originalUrl env alts).2 = { otlpEndpoint := some alt } := by
  intro alts
  induction alts with
  | nil => left; rfl
  | cons a rest ih =>
    by_cases ha : a = originalUrl
    · have he : tryAlternativeLoop w originalUrl env (a :: rest)
          = tryAlternativeLoop w originalUrl env rest := by
        simp [tryAlternativeLoop, ha]
      rw [he]
      rcases ih with h | ⟨alt, au, hm, hne, hp, ht, hres⟩
      · left; exact h
      · right; exact ⟨alt, au, List.mem_cons_of_mem _ hm, hne, hp, ht, hres⟩
    · cases hp : parseUrl a with
      | none =>
        have he : tryAlternativeLoop w originalUrl env (a :: rest)
            = tryAlternativeLoop w originalUrl env rest := by
          simp [tryAlternativeLoop, ha, hp]
        rw [he]
        rcases ih with h | ⟨alt, au, hm, hne, hp2, ht, hres⟩
        · left; exact h
        · right; exact ⟨alt, au, List.mem_cons_of_mem _ hm, hne, hp2, ht, hres⟩
      | some au =>
        by_cases ht : w.tcpOk au.hostname (effectivePort au) = true
        · right
          refine ⟨a, au, List.mem_cons_self _ _, ha, hp, ht, ?_⟩
          simp [tryAlternativeLoop, ha, hp, testTcpConnection, ht]
        · have ht2 : w.tcpOk au.hostname (effectivePort au) = false := by
            simpa using ht
          have he : tryAlternativeLoop w originalUrl env (a :: rest)
              = tryAlternativeLoop w originalUrl env rest := by
            simp [tryAlternativeLoop, ha, hp, testTcpConnection, ht2]
          rw [he]
          rcases ih with h | ⟨alt, au2, hm, hne, hp2, htc, hres⟩
          · left; exact h
          · right; exact ⟨alt, au2, List.mem_cons_of_mem _ hm, hne, hp2, htc, hres⟩

/-! ### Claims C5 and C10 -/

/-- A network in which the primary host is unreachable but
host.docker.internal accepts TCP connections. -/
def primaryDownWorld : NetWorld :=
  { tcpOk := fun host _ => host == "host.docker.internal"
    httpOk := fun _ => true }

/-- The ambient configuration before the probe: the endpoint the host
injected. -/
def primaryEnv : OtlpEnv := { otlpEndpoint := some "http://primary:4317" }

/-- C5 (counterexample).  Probing the configured endpoint while its host
is down and a Docker alternative is reachable makes `testOtlpEndpoint`
(via `tryAlternativeEndpoints`, otel-connectivity.ts line 144) write the
alternative endpoint back into the ambient configuration
`process.env.OTEL_EXPORTER_OTLP_ENDPOINT`: the environment after the call
differs from the environment before it, refuting the claim that no
pipeline operation mutates the transport configuration at runtime. -/
theorem try_alternative_endpoints_mutates_env :
    (testOtlpEndpoint primaryDownWorld "http://primary:4317" primaryEnv).2 ≠ primaryEnv ∧
    (testOtlpEndpoint primaryDownWorld "http://primary:4317" primaryEnv).2
      = { otlpEndpoint := some "http://host.docker.internal:4317" } ∧
    (testOtlpEndpoint primaryDownWorld "http://primary:4317" primaryEnv).1 = true := by
  decide

/-- C5 (amended).  The transport configuration is mutated at runtime in
exactly one situation: when the TCP probe of the configured endpoint
fails and some hard-coded alternative endpoint (distinct from the
original, well-formed, TCP-reachable) is found, `tryAlternativeEndpoints`
writes that alternative into `process.env.OTEL_EXPORTER_OTLP_ENDPOINT`;
in every other run of the connectivity test the environment is left
unchanged. -/
theorem endpoint_env_mutation_characterized (w : NetWorld) (url : String) (env : OtlpEnv) :
    (testOtlpEndpoint w url env).2 = env ∨
    ∃ u alt au, parseUrl url = some u ∧
      w.tcpOk u.hostname (effectivePort u) = false ∧
      alt ∈ alternativeEndpoints u ∧ alt ≠ url ∧ parseUrl alt = some au ∧
      w.tcpOk au.hostname (effectivePort au) = true ∧
      (testOtlpEndpoint w url env).2 = { otlpEndpoint := some alt } := by
  cases hu : parseUrl url with
  | none => left; simp [testOtlpEndpoint, testOtlpEndpointBody, hu]
  | some u =>
    by_cases ht : w.tcpOk u.hostname (effectivePort u) = true
    · left; simp [testOtlpEndpoint, testOtlpEndpointBody, hu, testTcpConnection, ht]
    · have ht2 : w.tcpOk u.hostname (effectivePort u) = false := by simpa using ht
      have he : testOtlpEndpoint w url env = tryAlternativeEndpoints w url env := by
        simp [testOtlpEndpoint, testOtlpEndpointBody, hu, testTcpConnection, ht2]
      have he2 : tryAlternativeEndpoints w url env
          = tryAlternativeLoop w url env (alternativeEndpoints u) := by
        simp [tryAlternativeEndpoints, hu]
      rw [he, he2]
      rcases tryAlternativeLoop_env_cases w url env (alternativeEndpoints u) with
        h | ⟨alt, au, hm, hne, hp, htc, hres⟩
      · left; exact h
      · right; exact ⟨u, alt, au, rfl, ht2, hm, hne, hp, htc, hres⟩

/-- C10 (confirmed).  `testOtlpEndpoint` always resolves to a boolean:
the catch handler turns any throw of the body into `false`; a malformed
URL yields `false`; a TCP failure with every alternative endpoint also
failing yields `false`; and an HTTP probe that gets no response (timeout
or request error) after a successful TCP connection yields `false` - in
all three failure shapes the environment is also untouched. -/
theorem testOtlpEndpoint_false_cases (w : NetWorld) (url : String) (env : OtlpEnv) :
    (∀ e, testOtlpEndpointBody w url env = Except.error e →
      testOtlpEndpoint w url env = (false, env)) ∧
    (parseUrl url = none → testOtlpEndpoint w url env = (false, env)) ∧
    (∀ u, parseUrl url = some u → w.tcpOk u.hostname (effectivePort u) = false →
      (∀ alt, alt ∈ alternativeEndpoints u → alt ≠ url →
        ∀ au, parseUrl alt = some au → w.tcpOk au.hostname (effectivePort au) = false) →
      testOtlpEndpoint w url env = (false, env)) ∧
    (∀ u, parseUrl url = some u → w.tcpOk u.hostname (effectivePort u) = true →
      w.httpOk url = false → testOtlpEndpoint w url env = (false, env)) := by
  refine ⟨?_, ?_, ?_, ?_⟩
  · intro e he; simp [testOtlpEndpoint, he]
  · intro hp; simp [testOtlpEndpoint, testOtlpEndpointBody, hp]
  · intro u hp ht hall
    have hloop := tryAlternativeLoop_all_fail w url env (alternativeEndpoints u) hall
    simp [testOtlpEndpoint, testOtlpEndpointBody, hp, testTcpConnection, ht,
      tryAlternativeEndpoints, hloop]
  · intro u hp ht hh
    simp [testOtlpEndpoint, testOtlpEndpointBody, hp, testTcpConnection, ht,
      testHttpEndpoint, hh]

/-- A network where nothing is reachable. -/
def deadWorld : NetWorld := { tcpOk := fun _ _ => false, httpOk := fun _ => false }

/-- An environment with no endpoint override set. -/
def emptyEnv : OtlpEnv := { otlpEndpoint := none }

/-- C10 (witness): a malformed URL and a well-formed but fully
unreachable URL both resolve `false` with the environment untouched. -/
theorem testOtlpEndpoint_false_cases_witness :
    testOtlpEndpoint deadWorld "not a url" emptyEnv = (false, emptyEnv) ∧
    testOtlpEndpoint deadWorld "http://localhost:4317" emptyEnv = (false, emptyEnv) :=
  ⟨(testOtlpEndpoint_false_cases deadWorld "not a url" emptyEnv).2.1 (by decide),
   (testOtlpEndpoint_false_cases deadWorld "http://localhost:4317" emptyEnv).2.2.1
     { protocol := "http:", hostname := "localhost", port := "4317" } (by decide) rfl
     (fun _ _ _ _ _ => rfl)⟩
